import Mathlib

/-!
Verification development for the exec internal-events telemetry layer
(src/internal_events/exec.rs). Each event variant is embedded as a plain
data holder and its emit impl as a pure function returning the structured
log records and metric updates it performs, in source order.
-/

namespace ExecEvents

/-- Severity of a structured log record; the source uses the diagnostic
macro for EventsReceived and CommandExecuted and the error macro for the
three failure variants. -/
inductive LogLevel where
  | trace
  | error
deriving DecidableEq, Repr

/-- One structured log record: severity, message, and named fields in the
order the source lists them (field values rendered to text). -/
structure LogRecord where
  level : LogLevel
  message : String
  fields : List (String × String)
deriving DecidableEq, Repr

/-- One metric update: a counter increment or a histogram observation,
with its name, amount (nanoseconds for the duration histogram) and label
set in source order. -/
inductive MetricUpdate where
  | counter (name : String) (amount : Nat) (labels : List (String × String))
  | histogram (name : String) (nanos : Nat) (labels : List (String × String))
deriving DecidableEq, Repr

def MetricUpdate.name : MetricUpdate → String
  | .counter n _ _ => n
  | .histogram n _ _ => n

def MetricUpdate.labels : MetricUpdate → List (String × String)
  | .counter _ _ ls => ls
  | .histogram _ _ ls => ls

/-- Everything one emit call performs: its log records and metric updates. -/
structure Emission where
  logs : List LogRecord
  metrics : List MetricUpdate
deriving DecidableEq, Repr

/-- Updates to a given metric name within an emission, in order. -/
def updatesTo (name : String) (ms : List MetricUpdate) : List MetricUpdate :=
  ms.filter (fun m => m.name == name)

/-- Total counter increment an emission applies to a given metric name. -/
def counterTotal (name : String) (ms : List MetricUpdate) : Nat :=
  (ms.map (fun m => match m with
    | .counter n a _ => if n == name then a else 0
    | .histogram _ _ _ => 0)).sum

/-- Modelled from the spec: the constant error_type::COMMAND_FAILED of the
crate prelude (src/internal_events/prelude.rs is not among the sources);
the spec fixes the error_type tag of command failures to "command_failed". -/
def error_type_COMMAND_FAILED : String := "command_failed"

/-- Modelled from the spec: the constant error_type::TIMED_OUT of the crate
prelude; the spec fixes the error_type tag of timeouts to "timed_out". -/
def error_type_TIMED_OUT : String := "timed_out"

/-- Modelled from the spec: the constant error_stage::RECEIVING of the crate
prelude; the spec fixes the stage tag of this layer to "receiving". -/
def error_stage_RECEIVING : String := "receiving"

/-- Model of std::io::Error: an optional raw OS error code plus its debug
rendering (carried opaquely, used only for the logged error field). -/
structure IoError where
  rawOsError : Option Int
  debugFmt : String
deriving DecidableEq, Repr

/-- Modelled from the spec: the helper io_error_code of the crate prelude is
not among the sources; per the spec it derives the error_code string from
the OS error, with an absent code mapping to the sentinel "unknown". -/
def io_error_code (e : IoError) : String :=
  match e.rawOsError with
  | some c => toString c
  | none => "unknown"

/-- Model of std::time::Duration as a nanosecond count. -/
structure Duration where
  nanos : Nat
deriving DecidableEq, Repr

def Duration.as_millis (d : Duration) : Nat := d.nanos / 1000000

/-- Model of tokio::time::error::Elapsed, carried for its display text only. -/
structure Elapsed where
  displayFmt : String
deriving DecidableEq, Repr

/-- ExecEventsReceived: a batch of records pulled from one invocation. -/
structure ExecEventsReceived where
  count : Nat
  command : String
  byte_size : Nat
deriving DecidableEq, Repr

/-- Emit impl of ExecEventsReceived, line for line from the source. -/
def ExecEventsReceived.emit (self : ExecEventsReceived) : Emission :=
  { logs := [
      { level := .trace,
        message := "Events received.",
        fields := [("count", toString self.count),
                   ("byte_size", toString self.byte_size),
                   ("command", self.command)] }],
    metrics := [
      .counter "component_received_events_total" self.count
        [("command", self.command)],
      .counter "component_received_event_bytes_total" self.byte_size
        [("command", self.command)],
      .counter "events_in_total" self.count
        [("command", self.command)]] }

/-- ExecFailedError: the process could not be spawned or its stream failed. -/
structure ExecFailedError where
  command : String
  error : IoError
deriving DecidableEq, Repr

/-- Emit impl of ExecFailedError, line for line from the source. -/
def ExecFailedError.emit (self : ExecFailedError) : Emission :=
  { logs := [
      { level := .error,
        message := "Unable to exec.",
        fields := [("command", self.command),
                   ("error", self.error.debugFmt),
                   ("error_type", error_type_COMMAND_FAILED),
                   ("error_code", io_error_code self.error),
                   ("stage", error_stage_RECEIVING)] }],
    metrics := [
      .counter "component_errors_total" 1
        [("command", self.command),
         ("error_type", error_type_COMMAND_FAILED),
         ("error_code", io_error_code self.error),
         ("stage", error_stage_RECEIVING)],
      .counter "processing_errors_total" 1
        [("command", self.command),
         ("error_type", error_type_COMMAND_FAILED),
         ("stage", error_stage_RECEIVING)]] }

/-- ExecTimeoutError: a bounded wait elapsed before the process finished. -/
structure ExecTimeoutError where
  command : String
  elapsed_seconds : Nat
  error : Elapsed
deriving DecidableEq, Repr

/-- Emit impl of ExecTimeoutError, line for line from the source. -/
def ExecTimeoutError.emit (self : ExecTimeoutError) : Emission :=
  { logs := [
      { level := .error,
        message := "Timeout during exec.",
        fields := [("command", self.command),
                   ("elapsed_seconds", toString self.elapsed_seconds),
                   ("error", self.error.displayFmt),
                   ("error_type", error_type_TIMED_OUT),
                   ("stage", error_stage_RECEIVING)] }],
    metrics := [
      .counter "component_errors_total" 1
        [("command", self.command),
         ("error_type", error_type_TIMED_OUT),
         ("stage", error_stage_RECEIVING)],
      .counter "processing_errors_total" 1
        [("command", self.command),
         ("error_type", error_type_TIMED_OUT),
         ("stage", error_stage_RECEIVING)]] }

/-- ExecCommandExecuted: the process ran to completion, result known. -/
structure ExecCommandExecuted where
  command : String
  exit_status : Option Int
  exec_duration : Duration
deriving DecidableEq, Repr

/-- Helper exit_status_string, line for line from the source. -/
def ExecCommandExecuted.exit_status_string (self : ExecCommandExecuted) : String :=
  match self.exit_status with
  | some exit_status => toString exit_status
  | none => "unknown"

/-- Emit impl of ExecCommandExecuted, line for line from the source. -/
def ExecCommandExecuted.emit (self : ExecCommandExecuted) : Emission :=
  { logs := [
      { level := .trace,
        message := "Executed command.",
        fields := [("command", self.command),
                   ("exit_status", self.exit_status_string),
                   ("elapsed_millis", toString self.exec_duration.as_millis)] }],
    metrics := [
      .counter "command_executed_total" 1
        [("command", self.command),
         ("exit_status", self.exit_status_string)],
      .histogram "command_execution_duration_seconds" self.exec_duration.nanos
        [("command", self.command),
         ("exit_status", self.exit_status_string)]] }

/-- Modelled from the spec: nix::errno::Errno is an external dependency not
among the sources; per the spec a SignalError carries the raw errno and
derives the code errno_N for errno value N (errno 5 gives errno_5), so the
errno renders as its decimal value. -/
structure Errno where
  raw : Nat
deriving DecidableEq, Repr

def Errno.displayFmt (e : Errno) : String := toString e.raw

/-- Model of std::num::TryFromIntError, carried for its display text only. -/
structure TryFromIntError where
  displayFmt : String
deriving DecidableEq, Repr

/-- The closed set of three signal-delivery failure causes. -/
inductive ExecFailedToSignalChildError where
  | SignalError (err : Errno)
  | FailedToMarshalPid (err : TryFromIntError)
  | NoPid
deriving DecidableEq, Repr

/-- Helper to_error_code, line for line from the source. -/
def ExecFailedToSignalChildError.to_error_code :
    ExecFailedToSignalChildError → String
  | .SignalError err => "errno_" ++ err.displayFmt
  | .FailedToMarshalPid _ => "failed_to_marshal_pid"
  | .NoPid => "no_pid"

/-- Display impl of ExecFailedToSignalChildError, line for line from the
source. -/
def ExecFailedToSignalChildError.displayFmt :
    ExecFailedToSignalChildError → String
  | .SignalError err => "errno: " ++ err.displayFmt
  | .FailedToMarshalPid err => "failed to marshal pid to i32: " ++ err.displayFmt
  | .NoPid => "child had no pid"

/-- Model of a std::process::Command carried opaquely by its debug
rendering, as the source only ever debug-formats it. -/
structure StdCommand where
  debugFmt : String
deriving DecidableEq, Repr

/-- Model of tokio::process::Command wrapping the std command. -/
structure Command where
  std : StdCommand
deriving DecidableEq, Repr

def Command.as_std (c : Command) : StdCommand := c.std

/-- ExecFailedToSignalChild: termination signal delivery failed. -/
structure ExecFailedToSignalChild where
  command : Command
  error : ExecFailedToSignalChildError

/-- Emit impl of ExecFailedToSignalChild, line for line from the source. -/
def ExecFailedToSignalChild.emit (self : ExecFailedToSignalChild) : Emission :=
  { logs := [
      { level := .error,
        message := "Failed to send SIGTERM to child, aborting early: "
                   ++ self.error.displayFmt,
        fields := [("command", self.command.as_std.debugFmt),
                   ("error_code", self.error.to_error_code),
                   ("error_type", error_type_COMMAND_FAILED),
                   ("stage", error_stage_RECEIVING)] }],
    metrics := [
      .counter "component_errors_total" 1
        [("command", self.command.as_std.debugFmt),
         ("error_code", self.error.to_error_code),
         ("error_type", error_type_COMMAND_FAILED),
         ("stage", error_stage_RECEIVING)],
      .counter "processing_errors_total" 1
        [("command_code", self.command.as_std.debugFmt),
         ("error", self.error.to_error_code),
         ("error_type", error_type_COMMAND_FAILED),
         ("stage", error_stage_RECEIVING)]] }

end ExecEvents

namespace ExecEvents

/-! Helper lemmas on the decimal rendering of integers. -/

theorem toDigitsCore_ne_nil (base : Nat) :
    ∀ (fuel n : Nat) (ds : List Char), ds ≠ [] → Nat.toDigitsCore base fuel n ds ≠ []
  | 0, _, _, h => h
  | fuel+1, n, ds, h => by
    simp only [Nat.toDigitsCore]
    split
    · exact List.cons_ne_nil _ _
    · exact toDigitsCore_ne_nil base fuel _ _ (List.cons_ne_nil _ _)

theorem toDigits_ne_nil (base n : Nat) : Nat.toDigits base n ≠ [] := by
  unfold Nat.toDigits
  simp only [Nat.toDigitsCore]
  split
  · exact List.cons_ne_nil _ _
  · exact toDigitsCore_ne_nil base n _ _ (List.cons_ne_nil _ _)

theorem nat_repr_ne_empty (n : Nat) : Nat.repr n ≠ "" := by
  intro h
  have h2 := congrArg String.data h
  simp only [Nat.repr, List.asString] at h2
  exact toDigits_ne_nil 10 n h2

theorem int_toString_ne_empty (n : Int) : toString n ≠ "" := by
  cases n with
  | ofNat m =>
    intro h
    exact nat_repr_ne_empty m h
  | negSucc m =>
    intro h
    have h3 : ("-" ++ Nat.repr (m+1) : String) = "" := h
    have h2 := congrArg String.data h3
    simp [String.data_append] at h2

/-- C1: emitting EventsReceived increments component_received_events_total by
exactly count and component_received_event_bytes_total by exactly byte_size,
both labeled with the given command, and increments the deprecated
events_in_total by the same count with the same command label, for every
count and byte_size including zero (the updates are unconditional, so a
zero value is not suppressed). -/
theorem C1_events_received_increments (count byte_size : Nat) (command : String) :
    counterTotal "component_received_events_total"
        (ExecEventsReceived.emit ⟨count, command, byte_size⟩).metrics = count ∧
    counterTotal "component_received_event_bytes_total"
        (ExecEventsReceived.emit ⟨count, command, byte_size⟩).metrics = byte_size ∧
    counterTotal "events_in_total"
        (ExecEventsReceived.emit ⟨count, command, byte_size⟩).metrics = count ∧
    updatesTo "component_received_events_total"
        (ExecEventsReceived.emit ⟨count, command, byte_size⟩).metrics =
      [.counter "component_received_events_total" count [("command", command)]] ∧
    updatesTo "component_received_event_bytes_total"
        (ExecEventsReceived.emit ⟨count, command, byte_size⟩).metrics =
      [.counter "component_received_event_bytes_total" byte_size [("command", command)]] ∧
    updatesTo "events_in_total"
        (ExecEventsReceived.emit ⟨count, command, byte_size⟩).metrics =
      [.counter "events_in_total" count [("command", command)]] := by
  refine ⟨?_, ?_, ?_, ?_, ?_, ?_⟩ <;>
    simp [ExecEventsReceived.emit, counterTotal, updatesTo, MetricUpdate.name]

end ExecEvents

namespace ExecEvents

/-- C2: emitting FailedError writes one error-level log record whose
error_code field equals the code derived from the OS error (the sentinel
"unknown" when the error carries no code), and increments
component_errors_total with labels command, error_type = command_failed,
error_code and stage = receiving, and the deprecated processing_errors_total
with labels command, error_type = command_failed and stage = receiving and
no error_code label, each by exactly 1. -/
theorem C2_failed_error_emission (command : String) (error : IoError) :
    (ExecFailedError.emit ⟨command, error⟩).logs.map LogRecord.level = [.error] ∧
    (ExecFailedError.emit ⟨command, error⟩).logs.map
        (fun r => r.fields.lookup "error_code") = [some (io_error_code error)] ∧
    (∀ c : Int, io_error_code ⟨some c, error.debugFmt⟩ = toString c) ∧
    io_error_code ⟨none, error.debugFmt⟩ = "unknown" ∧
    updatesTo "component_errors_total" (ExecFailedError.emit ⟨command, error⟩).metrics =
      [.counter "component_errors_total" 1
        [("command", command),
         ("error_type", "command_failed"),
         ("error_code", io_error_code error),
         ("stage", "receiving")]] ∧
    updatesTo "processing_errors_total" (ExecFailedError.emit ⟨command, error⟩).metrics =
      [.counter "processing_errors_total" 1
        [("command", command),
         ("error_type", "command_failed"),
         ("stage", "receiving")]] := by
  refine ⟨?_, ?_, ?_, ?_, ?_, ?_⟩ <;>
    simp [ExecFailedError.emit, updatesTo, MetricUpdate.name, io_error_code,
      error_type_COMMAND_FAILED, error_stage_RECEIVING, List.lookup]

/-- C6: emitting TimeoutError increments component_errors_total and the
deprecated processing_errors_total each by exactly 1, labeled with
error_type = timed_out, stage = receiving and the given command, for every
elapsed_seconds value. -/
theorem C6_timeout_error_increments (command : String) (elapsed_seconds : Nat)
    (error : Elapsed) :
    updatesTo "component_errors_total"
        (ExecTimeoutError.emit ⟨command, elapsed_seconds, error⟩).metrics =
      [.counter "component_errors_total" 1
        [("command", command),
         ("error_type", "timed_out"),
         ("stage", "receiving")]] ∧
    updatesTo "processing_errors_total"
        (ExecTimeoutError.emit ⟨command, elapsed_seconds, error⟩).metrics =
      [.counter "processing_errors_total" 1
        [("command", command),
         ("error_type", "timed_out"),
         ("stage", "receiving")]] := by
  refine ⟨?_, ?_⟩ <;>
    simp [ExecTimeoutError.emit, updatesTo, MetricUpdate.name,
      error_type_TIMED_OUT, error_stage_RECEIVING]

/-- C3: for CommandExecuted, a present exit status renders as its decimal
text (some 0 gives "0"), an absent one as the literal "unknown", never as an
empty string or an omitted label or field, and the histogram observation on
command_execution_duration_seconds equals exec_duration exactly, labeled by
command and exit_status. -/
theorem C3_command_executed_rendering (command : String) (n : Int)
    (status : Option Int) (d : Duration) :
    ExecCommandExecuted.exit_status_string ⟨command, some n, d⟩ = toString n ∧
    ExecCommandExecuted.exit_status_string ⟨command, some 0, d⟩ = "0" ∧
    ExecCommandExecuted.exit_status_string ⟨command, none, d⟩ = "unknown" ∧
    ExecCommandExecuted.exit_status_string ⟨command, status, d⟩ ≠ "" ∧
    (ExecCommandExecuted.emit ⟨command, status, d⟩).logs.map
        (fun r => r.fields.lookup "exit_status") =
      [some (ExecCommandExecuted.exit_status_string ⟨command, status, d⟩)] ∧
    updatesTo "command_execution_duration_seconds"
        (ExecCommandExecuted.emit ⟨command, status, d⟩).metrics =
      [.histogram "command_execution_duration_seconds" d.nanos
        [("command", command),
         ("exit_status", ExecCommandExecuted.exit_status_string ⟨command, status, d⟩)]] := by
  refine ⟨rfl, rfl, rfl, ?_, ?_, ?_⟩
  · cases status with
    | none =>
      simp [ExecCommandExecuted.exit_status_string]
    | some m =>
      simpa [ExecCommandExecuted.exit_status_string] using int_toString_ne_empty m
  · simp [ExecCommandExecuted.emit, List.lookup]
  · simp [ExecCommandExecuted.emit, updatesTo, MetricUpdate.name]

end ExecEvents

namespace ExecEvents

/-! Helper lemmas separating the derived error_code strings. -/

theorem errno_code_ne_marshal (s : String) :
    "errno_" ++ s ≠ "failed_to_marshal_pid" := by
  intro h
  have h2 := congrArg String.data h
  simp [String.data_append] at h2

theorem errno_code_ne_nopid (s : String) : "errno_" ++ s ≠ "no_pid" := by
  intro h
  have h2 := congrArg String.data h
  simp [String.data_append] at h2

theorem to_error_code_ne_display (err : ExecFailedToSignalChildError) :
    err.to_error_code ≠ err.displayFmt := by
  cases err with
  | SignalError e =>
    intro h
    have h2 := congrArg String.data h
    simp [ExecFailedToSignalChildError.to_error_code,
      ExecFailedToSignalChildError.displayFmt, String.data_append] at h2
  | FailedToMarshalPid e =>
    intro h
    have h2 := congrArg String.data h
    simp [ExecFailedToSignalChildError.to_error_code,
      ExecFailedToSignalChildError.displayFmt, String.data_append] at h2
  | NoPid =>
    intro h
    have h2 := congrArg String.data h
    simp [ExecFailedToSignalChildError.to_error_code,
      ExecFailedToSignalChildError.displayFmt] at h2

/-- C4: the three FailedToSignalChild causes map to distinct, deterministic
error_code strings: SignalError with errno N gives the text errno_N (errno 5
gives "errno_5"), FailedToMarshalPid gives "failed_to_marshal_pid" and NoPid
gives "no_pid"; and each emission performs exactly one +1 increment on
component_errors_total and exactly one +1 increment on the deprecated
processing_errors_total. -/
theorem C4_signal_child_error_codes (n : Nat) (e : TryFromIntError)
    (cmd : Command) (err : ExecFailedToSignalChildError) :
    ExecFailedToSignalChildError.to_error_code (.SignalError ⟨n⟩)
      = "errno_" ++ toString n ∧
    ExecFailedToSignalChildError.to_error_code (.SignalError ⟨5⟩) = "errno_5" ∧
    ExecFailedToSignalChildError.to_error_code (.FailedToMarshalPid e)
      = "failed_to_marshal_pid" ∧
    ExecFailedToSignalChildError.to_error_code .NoPid = "no_pid" ∧
    ExecFailedToSignalChildError.to_error_code (.SignalError ⟨n⟩)
      ≠ ExecFailedToSignalChildError.to_error_code (.FailedToMarshalPid e) ∧
    ExecFailedToSignalChildError.to_error_code (.SignalError ⟨n⟩)
      ≠ ExecFailedToSignalChildError.to_error_code .NoPid ∧
    ExecFailedToSignalChildError.to_error_code (.FailedToMarshalPid e)
      ≠ ExecFailedToSignalChildError.to_error_code .NoPid ∧
    updatesTo "component_errors_total"
        (ExecFailedToSignalChild.emit ⟨cmd, err⟩).metrics
      = [.counter "component_errors_total" 1
          [("command", cmd.as_std.debugFmt),
           ("error_code", err.to_error_code),
           ("error_type", "command_failed"),
           ("stage", "receiving")]] ∧
    updatesTo "processing_errors_total"
        (ExecFailedToSignalChild.emit ⟨cmd, err⟩).metrics
      = [.counter "processing_errors_total" 1
          [("command_code", cmd.as_std.debugFmt),
           ("error", err.to_error_code),
           ("error_type", "command_failed"),
           ("stage", "receiving")]] := by
  refine ⟨rfl, by decide, rfl, rfl, ?_, ?_,
    (by decide : ("failed_to_marshal_pid" : String) ≠ "no_pid"), ?_, ?_⟩
  · exact errno_code_ne_marshal (toString n)
  · exact errno_code_ne_nopid (toString n)
  · simp [ExecFailedToSignalChild.emit, updatesTo, MetricUpdate.name,
      error_type_COMMAND_FAILED, error_stage_RECEIVING]
  · simp [ExecFailedToSignalChild.emit, updatesTo, MetricUpdate.name,
      error_type_COMMAND_FAILED, error_stage_RECEIVING]

end ExecEvents

namespace ExecEvents

/-- C5: in every emission that touches a deprecated metric, the deprecated
counter receives the same logical increment as the corresponding current
counter in that same emission, and each of the two appears exactly once:
events_in_total mirrors component_received_events_total (amount count) for
EventsReceived, and processing_errors_total mirrors component_errors_total
(amount 1) for FailedError, TimeoutError and FailedToSignalChild. -/
theorem C5_deprecated_mirrors_current (count byte_size : Nat) (command : String)
    (err : IoError) (elapsed_seconds : Nat) (el : Elapsed)
    (cmd : Command) (serr : ExecFailedToSignalChildError) :
    counterTotal "events_in_total"
        (ExecEventsReceived.emit ⟨count, command, byte_size⟩).metrics
      = counterTotal "component_received_events_total"
        (ExecEventsReceived.emit ⟨count, command, byte_size⟩).metrics ∧
    (updatesTo "events_in_total"
        (ExecEventsReceived.emit ⟨count, command, byte_size⟩).metrics).length = 1 ∧
    (updatesTo "component_received_events_total"
        (ExecEventsReceived.emit ⟨count, command, byte_size⟩).metrics).length = 1 ∧
    counterTotal "processing_errors_total"
        (ExecFailedError.emit ⟨command, err⟩).metrics
      = counterTotal "component_errors_total"
        (ExecFailedError.emit ⟨command, err⟩).metrics ∧
    (updatesTo "processing_errors_total"
        (ExecFailedError.emit ⟨command, err⟩).metrics).length = 1 ∧
    (updatesTo "component_errors_total"
        (ExecFailedError.emit ⟨command, err⟩).metrics).length = 1 ∧
    counterTotal "processing_errors_total"
        (ExecTimeoutError.emit ⟨command, elapsed_seconds, el⟩).metrics
      = counterTotal "component_errors_total"
        (ExecTimeoutError.emit ⟨command, elapsed_seconds, el⟩).metrics ∧
    (updatesTo "processing_errors_total"
        (ExecTimeoutError.emit ⟨command, elapsed_seconds, el⟩).metrics).length = 1 ∧
    (updatesTo "component_errors_total"
        (ExecTimeoutError.emit ⟨command, elapsed_seconds, el⟩).metrics).length = 1 ∧
    counterTotal "processing_errors_total"
        (ExecFailedToSignalChild.emit ⟨cmd, serr⟩).metrics
      = counterTotal "component_errors_total"
        (ExecFailedToSignalChild.emit ⟨cmd, serr⟩).metrics ∧
    (updatesTo "processing_errors_total"
        (ExecFailedToSignalChild.emit ⟨cmd, serr⟩).metrics).length = 1 ∧
    (updatesTo "component_errors_total"
        (ExecFailedToSignalChild.emit ⟨cmd, serr⟩).metrics).length = 1 := by
  refine ⟨?_, ?_, ?_, ?_, ?_, ?_, ?_, ?_, ?_, ?_, ?_, ?_⟩ <;>
    simp [ExecEventsReceived.emit, ExecFailedError.emit, ExecTimeoutError.emit,
      ExecFailedToSignalChild.emit, counterTotal, updatesTo, MetricUpdate.name]

/-- C7 as stated is false at a concrete input: the single
component_errors_total update emitted by TimeoutError carries no error_code
label at all. -/
theorem C7_counterexample :
    (updatesTo "component_errors_total"
        (ExecTimeoutError.emit ⟨"sh", 1, ⟨"deadline has elapsed"⟩⟩).metrics).map
      (fun u => u.labels.lookup "error_code") = [none] := by
  simp [ExecTimeoutError.emit, updatesTo, MetricUpdate.name, MetricUpdate.labels,
    error_type_TIMED_OUT, error_stage_RECEIVING, List.lookup]

/-- C7 amended: every error-variant component_errors_total update carries the
command, error_type and stage labels; FailedError and FailedToSignalChild
additionally carry error_code, with an absent OS code rendered as the
explicit "unknown" sentinel; the TimeoutError update carries exactly the
command, error_type and stage labels and no error_code. -/
theorem C7_error_label_completeness (command : String) (err : IoError)
    (elapsed_seconds : Nat) (el : Elapsed) (cmd : Command)
    (serr : ExecFailedToSignalChildError) :
    ((updatesTo "component_errors_total"
        (ExecFailedError.emit ⟨command, err⟩).metrics).map
      (fun u => u.labels.map Prod.fst)
      = [["command", "error_type", "error_code", "stage"]]) ∧
    io_error_code ⟨none, err.debugFmt⟩ = "unknown" ∧
    ((updatesTo "component_errors_total"
        (ExecTimeoutError.emit ⟨command, elapsed_seconds, el⟩).metrics).map
      (fun u => u.labels.map Prod.fst)
      = [["command", "error_type", "stage"]]) ∧
    ((updatesTo "component_errors_total"
        (ExecFailedToSignalChild.emit ⟨cmd, serr⟩).metrics).map
      (fun u => u.labels.map Prod.fst)
      = [["command", "error_code", "error_type", "stage"]]) := by
  refine ⟨?_, rfl, ?_, ?_⟩ <;>
    simp [ExecFailedError.emit, ExecTimeoutError.emit, ExecFailedToSignalChild.emit,
      updatesTo, MetricUpdate.name, MetricUpdate.labels]

end ExecEvents

namespace ExecEvents

/-- C8: every emission writes exactly one structured log record, at the
informational diagnostic (trace) severity for EventsReceived and
CommandExecuted and at error severity for FailedError, TimeoutError and
FailedToSignalChild, and the record carries every field of the event plus
its derived classification fields (for FailedToSignalChild the failure
itself is rendered into the message text and the derived error_code field;
for CommandExecuted the duration is rendered as the derived elapsed_millis
field). -/
theorem C8_one_log_record_per_emission (count byte_size : Nat)
    (command : String) (err : IoError) (elapsed_seconds : Nat) (el : Elapsed)
    (status : Option Int) (d : Duration) (cmd : Command)
    (serr : ExecFailedToSignalChildError) :
    (ExecEventsReceived.emit ⟨count, command, byte_size⟩).logs.map
        LogRecord.level = [.trace] ∧
    (ExecEventsReceived.emit ⟨count, command, byte_size⟩).logs.map
        (fun r => r.fields.map Prod.fst)
      = [["count", "byte_size", "command"]] ∧
    (ExecCommandExecuted.emit ⟨command, status, d⟩).logs.map
        LogRecord.level = [.trace] ∧
    (ExecCommandExecuted.emit ⟨command, status, d⟩).logs.map
        (fun r => r.fields.map Prod.fst)
      = [["command", "exit_status", "elapsed_millis"]] ∧
    (ExecFailedError.emit ⟨command, err⟩).logs.map LogRecord.level = [.error] ∧
    (ExecFailedError.emit ⟨command, err⟩).logs.map
        (fun r => r.fields.map Prod.fst)
      = [["command", "error", "error_type", "error_code", "stage"]] ∧
    (ExecTimeoutError.emit ⟨command, elapsed_seconds, el⟩).logs.map
        LogRecord.level = [.error] ∧
    (ExecTimeoutError.emit ⟨command, elapsed_seconds, el⟩).logs.map
        (fun r => r.fields.map Prod.fst)
      = [["command", "elapsed_seconds", "error", "error_type", "stage"]] ∧
    (ExecFailedToSignalChild.emit ⟨cmd, serr⟩).logs.map
        LogRecord.level = [.error] ∧
    (ExecFailedToSignalChild.emit ⟨cmd, serr⟩).logs.map
        (fun r => r.fields.map Prod.fst)
      = [["command", "error_code", "error_type", "stage"]] ∧
    (ExecFailedToSignalChild.emit ⟨cmd, serr⟩).logs.map LogRecord.message
      = ["Failed to send SIGTERM to child, aborting early: "
          ++ serr.displayFmt] := by
  refine ⟨?_, ?_, ?_, ?_, ?_, ?_, ?_, ?_, ?_, ?_, ?_⟩ <;>
    simp [ExecEventsReceived.emit, ExecCommandExecuted.emit,
      ExecFailedError.emit, ExecTimeoutError.emit, ExecFailedToSignalChild.emit]

/-- C10: the deprecated processing_errors_total increment of
FailedToSignalChild keys the debug-formatted full command under
command_code, the same string as the command label of the current
component_errors_total update, and carries a label keyed error holding the
machine-readable to_error_code string, which differs from the
human-readable display text of the failure. -/
theorem C10_signal_child_deprecated_labels (cmd : Command)
    (err : ExecFailedToSignalChildError) :
    updatesTo "processing_errors_total"
        (ExecFailedToSignalChild.emit ⟨cmd, err⟩).metrics
      = [.counter "processing_errors_total" 1
          [("command_code", cmd.as_std.debugFmt),
           ("error", err.to_error_code),
           ("error_type", "command_failed"),
           ("stage", "receiving")]] ∧
    (updatesTo "processing_errors_total"
        (ExecFailedToSignalChild.emit ⟨cmd, err⟩).metrics).map
      (fun u => u.labels.lookup "command_code")
      = (updatesTo "component_errors_total"
          (ExecFailedToSignalChild.emit ⟨cmd, err⟩).metrics).map
        (fun u => u.labels.lookup "command") ∧
    err.to_error_code ≠ err.displayFmt := by
  refine ⟨?_, ?_, to_error_code_ne_display err⟩ <;>
    simp [ExecFailedToSignalChild.emit, updatesTo, MetricUpdate.name,
      MetricUpdate.labels, error_type_COMMAND_FAILED, error_stage_RECEIVING,
      List.lookup]

end ExecEvents
